import Mathlib

/-
Verification development for the Blender material import engine of
FortnitePorting (FortnitePorting/Plugins/Blender/import_task.py).

The Python source is shallowly embedded: dict-shaped parameter entries
become structures, the per-run material cache becomes an explicit state
record, Python truthiness is made explicit, and per-parameter exception
handling becomes total functions that record a log entry at each point
where the source catches an exception.
-/

set_option maxHeartbeats 1000000

namespace ImportTask

/-- A parameter entry `{"Name": ..., "Value": ...}` of one of the
non-texture kinds (scalar, vector, switch, component mask). -/
structure Pv (α : Type) where
  name : String
  value : α
deriving DecidableEq, Repr

/-- A texture parameter entry `{"Name": ..., "Value": path, "sRGB": ...}`. -/
structure TexParam where
  name : String
  value : String
  sRGB : Bool
deriving DecidableEq, Repr

/-- A 4-component value `{"R": ..., "G": ..., "B": ..., "A": ...}`. -/
structure RGBA where
  r : Rat
  g : Rat
  b : Rat
  a : Rat
deriving DecidableEq, Repr

/-- Python helper `first(target, expr)`: first element satisfying the
predicate, `None` if there is none (an empty/falsy target included). -/
def first (target : List α) (expr : α → Bool) : Option α :=
  target.find? expr

/-- `get_param(source, name)` from `import_material`: value of the first
entry named `name`, else `None`. -/
def get_param (source : List (Pv α)) (name : String) : Option α :=
  (first source (fun param => param.name = name)).map (fun p => p.value)

/-- `get_param` applied to a texture list (the value is the path). -/
def get_param_tex (source : List TexParam) (name : String) : Option String :=
  (first source (fun param => param.name = name)).map (fun p => p.value)

/-- `get_param_multiple(source, names)`: value of the first entry whose
name is a member of `names`, else `None`. -/
def get_param_multiple (source : List (Pv α)) (names : List String) : Option α :=
  (first source (fun param => names.contains param.name)).map (fun p => p.value)

/-- `get_param_multiple` applied to a texture list. -/
def get_param_multiple_tex (source : List TexParam) (names : List String) : Option String :=
  (first source (fun param => names.contains param.name)).map (fun p => p.value)

/-- Python truthiness of an optional boolean value (`None` is falsy). -/
def pyTruthyOptBool : Option Bool → Bool
  | none => false
  | some b => b

/-- Python truthiness of an optional string value (`None` and the empty
string are falsy). -/
def pyTruthyOptStr : Option String → Bool
  | none => false
  | some s => s ≠ ""

/-- `replace_or_add_parameter(list, replace_item)`: a `None` item is
ignored; otherwise every entry with the same name is overwritten in
place, and if no entry had that name the item is appended.  The name
accessor is a parameter because the source applies the function to
texture dicts and to scalar/vector dicts alike. -/
def replace_or_add_parameter (getName : α → String) (l : List α)
    (replace_item : Option α) : List α :=
  match replace_item with
  | none => l
  | some it =>
    let replaced := l.map (fun item => if getName item = getName it then it else item)
    if replaced.any (fun x => getName x = getName it) then replaced
    else replaced ++ [it]

/-- The hexadecimal digit character for `n`, as printed by Python `hex`
(digits, then lowercase letters). -/
def hexDigit (n : Nat) : Char :=
  if n < 10 then Char.ofNat (48 + n) else Char.ofNat (87 + n)

/-- Big-endian hexadecimal digit list of a natural number, as produced by
Python `hex(n)` after the `0x` prefix is dropped. -/
def hexDigits (n : Nat) : List Char :=
  if _h : n < 16 then [hexDigit n]
  else hexDigits (n / 16) ++ [hexDigit (n % 16)]
termination_by n
decreasing_by
  exact Nat.div_lt_self (by omega) (by omega)

/-- `hash_code(num)` = `hex(abs(num))[2:]`. -/
def hash_code (num : Int) : String :=
  ⟨hexDigits num.natAbs⟩

/-- An entry of the mesh's `TextureData` override list: a hash plus up to
three reserved texture slots. -/
structure TextureDataEntry where
  hash : Int
  diffuse : Option TexParam
  normal : Option TexParam
  specular : Option TexParam
deriving DecidableEq, Repr

/-- A variant override-parameter set (`OverrideParameters` entry). -/
structure OverrideParamSet where
  materialNameToAlter : String
  hash : Int
  textures : List TexParam
  scalars : List (Pv Rat)
  vectors : List (Pv RGBA)
deriving DecidableEq, Repr

/-- Lines 574-583 of `import_material`: the additive hash contribution of
the applicable override layers — every `TextureData` entry plus every
override-parameter set whose `MaterialNameToAlter` equals the material
name. -/
def additionalHash (texture_data : List TextureDataEntry)
    (override_parameters : List OverrideParamSet) (material_name : String) : Int :=
  (texture_data.map (fun d => d.hash)).sum
    + ((override_parameters.filter
        (fun p => p.materialNameToAlter = material_name)).map (fun p => p.hash)).sum

/-- Lines 585-586: the display name gains a `_`-separated `hash_code`
suffix exactly when the accumulated override hash is non-zero. -/
def resolvedName (material_name : String) (additional_hash : Int) : String :=
  if additional_hash ≠ 0 then material_name ++ "_" ++ hash_code additional_hash
  else material_name

/-- Lines 585-587: the cache fingerprint is the material's own hash plus
the accumulated override hash (added only when non-zero). -/
def fingerprint (material_hash : Int) (additional_hash : Int) : Int :=
  if additional_hash ≠ 0 then material_hash + additional_hash
  else material_hash

/-- The run-scoped material cache `self.imported_materials` together with
a supply of fresh material handles.  Handles are natural numbers; handle
equality models Python reference identity. -/
structure RunState where
  imported_materials : List (Int × Nat)
  nextHandle : Nat
deriving DecidableEq, Repr

/-- `self.imported_materials.get(material_hash)`. -/
def cacheGet (st : RunState) (h : Int) : Option Nat :=
  (st.imported_materials.find? (fun e => e.1 = h)).map (fun e => e.2)

/-- Lines 570-596 of `import_material`: compute the fingerprint, consult
the run cache, and either reuse the cached handle (building nothing) or
build a fresh material handle and register it.  The returned Boolean
records whether a graph was constructed. -/
def import_material_cache_step (st : RunState) (material_name : String)
    (material_hash : Int) (texture_data : List TextureDataEntry)
    (override_parameters : List OverrideParamSet) : RunState × Nat × Bool :=
  let add := additionalHash texture_data override_parameters material_name
  let fp := fingerprint material_hash add
  match cacheGet st fp with
  | some existing => (st, existing, false)
  | none =>
    ({ imported_materials := st.imported_materials ++ [(fp, st.nextHandle)],
       nextHandle := st.nextHandle + 1 }, st.nextHandle, true)

/-- Lines 612-616: merge the reserved `TextureData` slots (diffuse,
normal, specular) of every entry into the texture list. -/
def mergeTextureData (textures : List TexParam)
    (texture_data : List TextureDataEntry) : List TexParam :=
  texture_data.foldl
    (fun acc d =>
      let acc := replace_or_add_parameter TexParam.name acc d.diffuse
      let acc := replace_or_add_parameter TexParam.name acc d.normal
      replace_or_add_parameter TexParam.name acc d.specular)
    textures

/-- Lines 618-627: merge the texture entries of every applicable
override-parameter set into the texture list. -/
def mergeOverrideTextures (textures : List TexParam)
    (override_parameters : List OverrideParamSet) : List TexParam :=
  override_parameters.foldl
    (fun acc p => p.textures.foldl
      (fun acc t => replace_or_add_parameter TexParam.name acc (some t)) acc)
    textures

/-- Lines 618-627: merge the scalar or vector entries of every applicable
override-parameter set into the corresponding kind list. -/
def mergeOverridePvs (base : List (Pv α))
    (layers : List (List (Pv α))) : List (Pv α) :=
  layers.foldl
    (fun acc layer => layer.foldl
      (fun acc s => replace_or_add_parameter Pv.name acc (some s)) acc)
    base

/-- The five kind-sequences of a material descriptor. -/
structure ParamSet where
  textures : List TexParam
  scalars : List (Pv Rat)
  vectors : List (Pv RGBA)
  switches : List (Pv Bool)
  component_masks : List (Pv RGBA)
deriving DecidableEq, Repr

/-- Lines 606-627 of `import_material`: the effective parameter set after
all applicable override layers are merged in.  `override_parameters` is
assumed already filtered to the current material (line 579). -/
def effectiveParams (base : ParamSet) (texture_data : List TextureDataEntry)
    (override_parameters : List OverrideParamSet) : ParamSet :=
  { textures := mergeOverrideTextures
      (mergeTextureData base.textures texture_data) override_parameters
    scalars := mergeOverridePvs base.scalars
      (override_parameters.map (fun p => p.scalars))
    vectors := mergeOverridePvs base.vectors
      (override_parameters.map (fun p => p.vectors))
    switches := base.switches
    component_masks := base.component_masks }

/-- The shader family implied by the final `socket_mappings` /
`shader_node` assignments. -/
inductive Family
  | default
  | layered
  | toon
  | valet
  | glass
  | trunk
  | foliage
deriving DecidableEq, Repr

/-- The material-level graph state mutated by the family-selection block
(lines 629-824): current root shader node template, active mapping
table, blend method, transparent-back flag and subsurface flag. -/
structure MatState where
  shaderTree : String
  mappings : Family
  blendMethod : String
  showTransparentBack : Bool
  useSSS : Bool
deriving DecidableEq, Repr

/-- Lines 791-793: the switch names enabling the layered family. -/
def layer_switch_names : List String :=
  ["Use 2 Layers", "Use 3 Layers", "Use 4 Layers", "Use 5 Layers",
   "Use 6 Layers", "Use 7 Layers",
   "Use 2 Materials", "Use 3 Materials", "Use 4 Materials",
   "Use 5 Materials", "Use 6 Materials", "Use 7 Materials",
   "Use_Multiple_Material_Textures"]

/-- Lines 794-798: the per-layer texture names enabling the layered
family. -/
def extra_layer_names : List String :=
  ["Diffuse_Texture_2", "SpecularMasks_2", "Normals_Texture_2", "Emissive_Texture_2",
   "Diffuse_Texture_3", "SpecularMasks_3", "Normals_Texture_3", "Emissive_Texture_3",
   "Diffuse_Texture_4", "SpecularMasks_4", "Normals_Texture_4", "Emissive_Texture_4",
   "Diffuse_Texture_5", "SpecularMasks_5", "Normals_Texture_5", "Emissive_Texture_5",
   "Diffuse_Texture_6", "SpecularMasks_6", "Normals_Texture_6", "Emissive_Texture_6"]

/-- Line 799: the layered-family predicate. -/
def layeredPred (switches : List (Pv Bool)) (textures : List TexParam) : Bool :=
  pyTruthyOptBool (get_param_multiple switches layer_switch_names)
    && pyTruthyOptStr (get_param_multiple_tex textures extra_layer_names)

/-- Line 803: the toon-family predicate. -/
def toonPred (textures : List TexParam) : Bool :=
  (["LitDiffuse", "ShadedDiffuse"]).any
    (fun x => pyTruthyOptStr (get_param_tex textures x))

/-- Optional descriptor-level fields of the material consulted by the
family-selection block. -/
structure MaterialFlags where
  absoluteParent : Option String
  useGlassMaterial : Option Bool
  useFoliageMaterial : Option Bool
deriving DecidableEq, Repr

/-- Lines 629-824 of `import_material`, restricted to the state the
family-selection block mutates.  Each `if` overwrites the root template
and mapping table of any earlier match; the trunk branch changes only
the mapping table; the foliage branch is guarded by `not is_trunk`. -/
def selectShader (flags : MaterialFlags) (textures : List TexParam)
    (switches : List (Pv Bool)) : MatState :=
  let st : MatState :=
    { shaderTree := "FP Material", mappings := Family.default,
      blendMethod := "CLIP", showTransparentBack := true, useSSS := false }
  let st := if layeredPred switches textures then
      { st with shaderTree := "FP Layer", mappings := Family.layered } else st
  let st := if toonPred textures then
      { st with shaderTree := "FP Toon", mappings := Family.toon } else st
  let st := if flags.absoluteParent = some "M_FN_Valet_Master" then
      { st with shaderTree := "FP Valet", mappings := Family.valet } else st
  let st := if pyTruthyOptBool flags.useGlassMaterial then
      { st with shaderTree := "FP Glass", mappings := Family.glass, blendMethod := "BLEND", showTransparentBack := false }
    else st
  let is_trunk := pyTruthyOptBool (get_param switches "IsTrunk")
  let st := if is_trunk then { st with mappings := Family.trunk } else st
  let st := if pyTruthyOptBool flags.useFoliageMaterial && !is_trunk then
      { st with shaderTree := "FP Foliage", mappings := Family.foliage, useSSS := true }
    else st
  st

/-- `SlotMapping`: a declarative rule mapping a source parameter name to
a target slot (default: the name itself), with optional alpha slot,
switch slot, value transform and UV coordinate channel.  The value
transform returns `Except` so that a transform raising an exception on a
value is representable. -/
structure SlotMapping (α : Type) where
  name : String
  slot : String
  alpha_slot : Option String := none
  switch_slot : Option String := none
  value_func : Option (α → Except String α) := none
  coords : String := "UV0"

/-- `SlotMapping(name)` with the slot defaulted to the name. -/
def SM (name : String) : SlotMapping α :=
  { name := name, slot := name }

/-- `SlotMapping(name, slot)`. -/
def SMto (name slot : String) : SlotMapping α :=
  { name := name, slot := slot }

/-- `MappingCollection`: per-kind lists of slot mappings. -/
structure MappingCollection where
  textures : List (SlotMapping String) := []
  scalars : List (SlotMapping Rat) := []
  vectors : List (SlotMapping RGBA) := []
  switches : List (SlotMapping Bool) := []
  component_masks : List (SlotMapping RGBA) := []

/-- Python `int(value)` on a rational: truncation toward zero. -/
def pyInt (v : Rat) : Rat :=
  ((Int.tdiv v.num (v.den : Int) : Int) : Rat)

/-- `default_mappings` (lines 40-93). -/
def default_mappings : MappingCollection :=
  { textures :=
      [SM "Diffuse",
       SMto "D" "Diffuse",
       SMto "Base Color" "Diffuse",
       SMto "Concrete" "Diffuse",
       SMto "Trunk_BaseColor" "Diffuse",
       { SM "Background Diffuse" with alpha_slot := some "Background Diffuse Alpha" },
       { SMto "BG Diffuse Texture" "Background Diffuse" with alpha_slot := some "Background Diffuse Alpha" },
       SM "M",
       SMto "Mask" "M",
       SM "SpecularMasks",
       SMto "S" "SpecularMasks",
       SMto "SRM" "SpecularMasks",
       SMto "Specular Mask" "SpecularMasks",
       SMto "Concrete_SpecMask" "SpecularMasks",
       SMto "Trunk_Specular" "SpecularMasks",
       SM "Normals",
       SMto "N" "Normals",
       SMto "Normal" "Normals",
       SMto "NormalMap" "Normals",
       SMto "ConcreteTextureNormal" "Normals",
       SMto "Trunk_Normal" "Normals",
       SMto "Emissive" "Emission",
       SMto "EmissiveTexture" "Emission",
       SM "MaskTexture",
       SMto "OpacityMask" "MaskTexture"],
    scalars :=
      [SMto "RoughnessMin" "Roughness Min",
       SMto "SpecRoughnessMin" "Roughness Min",
       SMto "RawRoughnessMin" "Roughness Min",
       SMto "RoughnessMax" "Roughness Max",
       SMto "SpecRoughnessMax" "Roughness Max",
       SMto "RawRoughnessMax" "Roughness Max",
       SMto "emissive mult" "Emission Strength"],
    vectors :=
      [{ SMto "Skin Boost Color And Exponent" "Skin Color" with alpha_slot := some "Skin Boost" },
       { SMto "SkinTint" "Skin Color" with alpha_slot := some "Skin Boost" },
       SMto "EmissiveMultiplier" "Emission Multiplier",
       SMto "Emissive Multiplier" "Emission Multiplier",
       { SMto "Emissive Color" "Emission Color" with switch_slot := some "Use Emission Color" }],
    switches :=
      [SM "SwizzleRoughnessToGreen"] }

/-- `layer_mappings` (lines 95-127). -/
def layer_mappings : MappingCollection :=
  { textures :=
      [SM "Diffuse", SM "SpecularMasks", SM "Normals", SM "EmissiveTexture",
       SM "Diffuse_Texture_2", SM "SpecularMasks_2", SM "Normals_Texture_2", SM "Emissive_Texture_2",
       SM "Diffuse_Texture_3", SM "SpecularMasks_3", SM "Normals_Texture_3", SM "Emissive_Texture_3",
       SM "Diffuse_Texture_4", SM "SpecularMasks_4", SM "Normals_Texture_4", SM "Emissive_Texture_4",
       SM "Diffuse_Texture_5", SM "SpecularMasks_5", SM "Normals_Texture_5", SM "Emissive_Texture_5",
       SM "Diffuse_Texture_6", SM "SpecularMasks_6", SM "Normals_Texture_6", SM "Emissive_Texture_6"] }

/-- `toon_mappings` (lines 129-146). -/
def toon_mappings : MappingCollection :=
  { textures :=
      [SM "LitDiffuse", SM "ShadedDiffuse", SM "DistanceField_InkLines",
       SM "InkLineColor_Texture", SM "SSC_Texture", SM "Normals"],
    scalars :=
      [SM "ShadedColorDarkening", SM "FakeNormalBlend_Amt",
       { (SMto "PBR_Shading" "Use PBR Shading" : SlotMapping Rat) with value_func := some (fun value => Except.ok (pyInt value)) }],
    vectors :=
      [SMto "InkLineColor" "InkLineColor_Texture"] }

/-- `valet_mappings` (lines 148-204). -/
def valet_mappings : MappingCollection :=
  { textures :=
      [SM "Diffuse",
       { SM "Mask" with alpha_slot := some "Mask Alpha" },
       { SM "Decal" with alpha_slot := some "Decal Alpha", coords := "UV1" },
       SM "Normal",
       SM "Specular Mask",
       SM "Scratch/Grime/EMPTY"],
    scalars :=
      [SM "Scratch Intensity", SM "Grime Intensity", SM "Grime Spec", SM "Grime Roughness",
       SM "Layer 01 Specular", SM "Layer 01 Metalness", SM "Layer 01 Roughness Min",
       SM "Layer 01 Roughness Max", SM "Layer 01 Clearcoat",
       SM "Layer 01 Clearcoat Roughness Min", SM "Layer 01 Clearcoat Roughness Max",
       SM "Layer 02 Specular", SM "Layer 02 Metalness", SM "Layer 02 Roughness Min",
       SM "Layer 02 Roughness Max", SM "Layer 02 Clearcoat",
       SM "Layer 02 Clearcoat Roughness Min", SM "Layer 02 Clearcoat Roughness Max",
       SM "Layer 03 Specular", SM "Layer 03 Metalness", SM "Layer 03 Roughness Min",
       SM "Layer 03 Roughness Max", SM "Layer 03 Clearcoat",
       SM "Layer 03 Clearcoat Roughness Min", SM "Layer 03 Clearcoat Roughness Max",
       SM "Layer 04 Specular", SM "Layer 04 Metalness", SM "Layer 04 Roughness Min",
       SM "Layer 04 Roughness Max", SM "Layer 04 Clearcoat",
       SM "Layer 04 Clearcoat Roughness Min", SM "Layer 04 Clearcoat Roughness Max"],
    vectors :=
      [SM "Scratch Tint", SM "Grime Tint",
       SM "Layer 01 Color", SM "Layer 02 Color", SM "Layer 03 Color", SM "Layer 04 Color"] }

/-- `glass_mappings` (lines 206-229). -/
def glass_mappings : MappingCollection :=
  { textures :=
      [SM "Color_DarkTint",
       SMto "Diffuse Texture" "Color",
       SM "Normals",
       SMto "BakedNormal" "Normals",
       { SMto "Diffuse Texture with Alpha Mask" "Color" with alpha_slot := some "Mask" }],
    scalars :=
      [SM "Specular", SM "Metallic", SM "Roughness",
       SMto "Window Tint Amount" "Tint Amount",
       SM "Fresnel Exponent", SM "Fresnel Inner Transparency",
       SM "Fresnel Inner Transparency Max Tint", SM "Fresnel Outer Transparency",
       SMto "Glass thickness" "Thickness"],
    vectors :=
      [SMto "ColorFront" "Color", SMto "Base Color" "Color"] }

/-- `trunk_mappings` (lines 231-237). -/
def trunk_mappings : MappingCollection :=
  { textures :=
      [SMto "Trunk_BaseColor" "Diffuse",
       SMto "Trunk_Specular" "SpecularMasks",
       SMto "Trunk_Normal" "Normals"] }

/-- `foliage_mappings` (lines 239-254). -/
def foliage_mappings : MappingCollection :=
  { textures :=
      [SM "Diffuse", SM "Normals", SM "MaskTexture"],
    scalars :=
      [SMto "Roughness Leafs" "Roughness", SMto "Specular_Leafs" "Specular"],
    vectors :=
      [SM "Color1_Base", SM "Color2_Lit", SM "Color3_Shadows"] }

/-- `gradient_mappings` (lines 256-273). -/
def gradient_mappings : MappingCollection :=
  { textures :=
      [SM "Diffuse",
       { SM "Layer Mask" with alpha_slot := some "Layer Mask Alpha" },
       SM "SkinFX_Mask",
       SM "Layer1_Gradient", SM "Layer2_Gradient", SM "Layer3_Gradient",
       SM "Layer4_Gradient", SM "Layer5_Gradient"],
    switches :=
      [SMto "use Alpha Channel as mask" "Use Layer Mask Alpha"],
    component_masks :=
      [SM "GmapSkinCustomization_Channel"] }

/-- The mapping table assigned to `socket_mappings` for each family. -/
def tableOf : Family → MappingCollection
  | Family.default => default_mappings
  | Family.layered => layer_mappings
  | Family.toon => toon_mappings
  | Family.valet => valet_mappings
  | Family.glass => glass_mappings
  | Family.trunk => trunk_mappings
  | Family.foliage => foliage_mappings

/-- A value carried by a node output or written to a node input. -/
inductive Val
  | s (x : Rat)
  | rgba (r g b a : Rat)
deriving DecidableEq, Repr

/-- A node of the shader graph.  Fields the claims never touch (exact
socket-derived positions of wired nodes) are left `none`. -/
structure Node where
  type : String
  label : Option String := none
  value : Option Val := none
  location : Option (Int × Int) := none
  image : Option String := none
  colorspace : Option String := none
  uv_map : Option String := none
  width : Option Nat := none
deriving DecidableEq, Repr

/-- A link from output `srcOut` of node `src` to input `dstSlot` of node
`dstNode`.  Nodes are identified by their insertion index. -/
structure Link where
  src : Nat
  srcOut : Nat
  dstNode : Nat
  dstSlot : String
deriving DecidableEq, Repr

/-- The graph state threaded through parameter resolution: created
nodes, created links, the input-socket writes performed so far, the
running vertical offset for unmapped parameters, and a count of caught
(logged) per-parameter exceptions. -/
structure GraphState where
  nodes : List Node := []
  links : List Link := []
  slots : List (Nat × String × Val) := []
  unused_parameter_offset : Int := 0
  logs : Nat := 0
deriving DecidableEq, Repr

/-- Apply an update to the node with the given insertion index. -/
def updateNode (st : GraphState) (id : Nat) (f : Node → Node) : GraphState :=
  { st with nodes := st.nodes.mapIdx (fun i n => if i = id then f n else n) }

/-- Append a freshly created node (`nodes.new`). -/
def appendNode (st : GraphState) (n : Node) : GraphState :=
  { st with nodes := st.nodes ++ [n] }

/-- Record a `default_value` write to input `slot` of node `node`. -/
def setSlot (st : GraphState) (node : Nat) (slot : String) (v : Val) : GraphState :=
  { st with slots := st.slots ++ [(node, slot, v)] }

/-- Record a new link. -/
def addLink (st : GraphState) (src srcOut dstNode : Nat) (dstSlot : String) : GraphState :=
  { st with links := st.links ++ [{ src := src, srcOut := srcOut, dstNode := dstNode, dstSlot := dstSlot }] }

/-- `texture_param` (lines 658-693).  The image node is created before
the mapping lookup, exactly as in the source; `img` is the texture
resolver (`self.import_image`), whose `None` result makes the attribute
accesses on lines 665-666 raise (caught and logged).  A texture rule
with a `switch_slot` would make line 686 read the undefined local
`value`, a NameError that the handler catches (logged). -/
def texture_param (img : String → Option String) (target_mappings : MappingCollection)
    (target_node : Nat) (add_unused_params : Bool) (st : GraphState)
    (data : TexParam) : GraphState :=
  let node_id := st.nodes.length
  let st := appendNode st { type := "ShaderNodeTexImage" }
  match img data.value with
  | none => { st with logs := st.logs + 1 }
  | some image_name =>
    let st := updateNode st node_id (fun n =>
      { n with image := some image_name,
               colorspace := some (if data.sRGB then "sRGB" else "Non-Color") })
    match first target_mappings.textures (fun x => x.name = data.name) with
    | none =>
      if add_unused_params then
        let st := updateNode st node_id (fun n =>
          { n with label := some data.name, location := some (400, st.unused_parameter_offset) })
        { st with unused_parameter_offset := st.unused_parameter_offset - 50 }
      else st
    | some mappings =>
      let st := addLink st node_id 0 target_node mappings.slot
      let st := match mappings.alpha_slot with
        | some a => addLink st node_id 1 target_node a
        | none => st
      match mappings.switch_slot with
      | some _ => { st with logs := st.logs + 1 }
      | none =>
        if mappings.coords ≠ "UV0" then
          let uv_id := st.nodes.length
          let st := appendNode st { type := "ShaderNodeUVMap", uv_map := some mappings.coords }
          addLink st uv_id 0 node_id "0"
        else st

/-- `scalar_param` (lines 695-717).  A value transform raising on the
value is caught and logged with no further effect. -/
def scalar_param (target_mappings : MappingCollection) (target_node : Nat)
    (add_unused_params : Bool) (st : GraphState) (data : Pv Rat) : GraphState :=
  match first target_mappings.scalars (fun x => x.name = data.name) with
  | none =>
    if add_unused_params then
      let st := appendNode st
        { type := "ShaderNodeValue", value := some (Val.s data.value),
          label := some data.name, width := some 250,
          location := some (400, st.unused_parameter_offset) }
      { st with unused_parameter_offset := st.unused_parameter_offset - 100 }
    else st
  | some mappings =>
    match (match mappings.value_func with
           | some f => f data.value
           | none => Except.ok data.value) with
    | Except.error _ => { st with logs := st.logs + 1 }
    | Except.ok value =>
      let st := setSlot st target_node mappings.slot (Val.s value)
      match mappings.switch_slot with
      | some sw => setSlot st target_node sw (Val.s (if value ≠ 0 then 1 else 0))
      | none => st

/-- `vector_param` (lines 719-743).  In the `switch_slot` branch the
source tests the truthiness of the value dict, which is never empty, so
the switch input is always written 1. -/
def vector_param (target_mappings : MappingCollection) (target_node : Nat)
    (add_unused_params : Bool) (st : GraphState) (data : Pv RGBA) : GraphState :=
  match first target_mappings.vectors (fun x => x.name = data.name) with
  | none =>
    if add_unused_params then
      let st := appendNode st
        { type := "ShaderNodeRGB", value := some (Val.rgba data.value.r data.value.g data.value.b data.value.a),
          label := some data.name, width := some 250,
          location := some (400, st.unused_parameter_offset) }
      { st with unused_parameter_offset := st.unused_parameter_offset - 200 }
    else st
  | some mappings =>
    match (match mappings.value_func with
           | some f => f data.value
           | none => Except.ok data.value) with
    | Except.error _ => { st with logs := st.logs + 1 }
    | Except.ok value =>
      let st := setSlot st target_node mappings.slot (Val.rgba value.r value.g value.b 1)
      let st := match mappings.alpha_slot with
        | some a => setSlot st target_node a (Val.s value.a)
        | none => st
      match mappings.switch_slot with
      | some sw => setSlot st target_node sw (Val.s 1)
      | none => st

/-- `component_mask_param` (lines 745-765). -/
def component_mask_param (target_mappings : MappingCollection) (target_node : Nat)
    (add_unused_params : Bool) (st : GraphState) (data : Pv RGBA) : GraphState :=
  match first target_mappings.component_masks (fun x => x.name = data.name) with
  | none =>
    if add_unused_params then
      let st := appendNode st
        { type := "ShaderNodeRGB", value := some (Val.rgba data.value.r data.value.g data.value.b data.value.a),
          label := some data.name, width := some 250,
          location := some (400, st.unused_parameter_offset) }
      { st with unused_parameter_offset := st.unused_parameter_offset - 200 }
    else st
  | some mappings =>
    match (match mappings.value_func with
           | some f => f data.value
           | none => Except.ok data.value) with
    | Except.error _ => { st with logs := st.logs + 1 }
    | Except.ok value =>
      setSlot st target_node mappings.slot (Val.rgba value.r value.g value.b value.a)

/-- `switch_param` (lines 767-789). -/
def switch_param (target_mappings : MappingCollection) (target_node : Nat)
    (add_unused_params : Bool) (st : GraphState) (data : Pv Bool) : GraphState :=
  match first target_mappings.switches (fun x => x.name = data.name) with
  | none =>
    if add_unused_params then
      let st := appendNode st
        { type := "ShaderNodeGroup", value := some (Val.s (if data.value then 1 else 0)),
          label := some data.name, width := some 250,
          location := some (400, st.unused_parameter_offset) }
      { st with unused_parameter_offset := st.unused_parameter_offset - 125 }
    else st
  | some mappings =>
    match (match mappings.value_func with
           | some f => f data.value
           | none => Except.ok data.value) with
    | Except.error _ => { st with logs := st.logs + 1 }
    | Except.ok value =>
      setSlot st target_node mappings.slot (Val.s (if value then 1 else 0))

/-- `setup_params` (lines 826-840): resolve every parameter of every
kind, in kind order textures, scalars, vectors, component masks,
switches. -/
def setup_params (img : String → Option String) (mappings : MappingCollection)
    (target_node : Nat) (add_unused_params : Bool) (ps : ParamSet)
    (st : GraphState) : GraphState :=
  let st := ps.textures.foldl (texture_param img mappings target_node add_unused_params) st
  let st := ps.scalars.foldl (scalar_param mappings target_node add_unused_params) st
  let st := ps.vectors.foldl (vector_param mappings target_node add_unused_params) st
  let st := ps.component_masks.foldl (component_mask_param mappings target_node add_unused_params) st
  ps.switches.foldl (switch_param mappings target_node add_unused_params) st

/-- One post-processing fix-up performed after base parameter
resolution (lines 844-958). -/
inductive Fixup
  | markCrunchVerts
  | zeroAlpha
  | setAO (v : Rat)
  | setCavity (v : Rat)
  | setSubsurface (v : Rat)
  | setSkinColor (c : RGBA)
  | disableEmissive
  | swizzleRoughness
  | vertexColorMask
  | emissiveCrop (c : RGBA)
  | modulateEmissive
  | diffuseIndexError
  | gradientSubGraph
  | toonBrightness (v : Rat)
deriving DecidableEq, Repr

/-- Whether some link already feeds input `slot` of node `node`. -/
def linkedInto (st : GraphState) (node : Nat) (slot : String) : Bool :=
  st.links.any (fun l => l.dstNode = node && l.dstSlot = slot)

/-- The configuration scalars read from `self.options` during
post-processing. -/
structure ImportOptions where
  ambientOcclusion : Rat
  cavity : Rat
  subsurface : Rat
  toonBrightness : Rat
deriving DecidableEq, Repr

/-- Line 846: the vertex-crunch test — sentinel material name, or the
scalar `HT_CrunchVerts` equal to 1. -/
def crunchPred (material_name : String) (scalars : List (Pv Rat)) : Bool :=
  (["MI_VertexCrunch", "M_VertexCrunch"]).contains material_name
    || get_param scalars "HT_CrunchVerts" == some 1

/-- Lines 866-871: the emissive toggle switch names. -/
def emissive_toggle_names : List String :=
  ["Emissive", "UseBasicEmissive", "UseAdvancedEmissive", "Use Emissive"]

/-- Lines 900-905: the emissive-crop bounds vector names. -/
def emission_crop_vector_params : List String :=
  ["EmissiveUVs_RG_UpperLeftCorner_BA_LowerRightCorner",
   "Emissive Texture UVs RG_TopLeft BA_BottomRight",
   "Emissive 2 UV Positioning (RG)UpperLeft (BA)LowerRight",
   "EmissiveUVPositioning (RG)UpperLeft (BA)LowerRight"]

/-- Lines 907-910: the emissive-crop switch names. -/
def emission_crop_switch_params : List String :=
  ["CroppedEmissive", "Manipulate Emissive Uvs"]

/-- Lines 956-958: the toon-family brightness fix-up, reached only when
no earlier statement returned or raised. -/
def ppToonTail (shaderTree : String) (opts : ImportOptions) : List Fixup :=
  if shaderTree = "FP Toon" then [Fixup.toonBrightness opts.toonBrightness] else []

/-- Lines 929-953: the gradient sub-graph fix-up.  Its access to
`shader_node.inputs["Diffuse"].links[0]` raises an uncaught IndexError
when no diffuse link exists, aborting everything after it. -/
def ppGradTail (gradSwitch diffuseLinked : Bool) (shaderTree : String)
    (opts : ImportOptions) : List Fixup :=
  if gradSwitch then
    if diffuseLinked then Fixup.gradientSubGraph :: ppToonTail shaderTree opts
    else [Fixup.diffuseIndexError]
  else ppToonTail shaderTree opts

/-- Lines 925-927: the diffuse-modulated emissive fix-up; the same
uncaught IndexError applies when no diffuse link exists. -/
def ppModTail (modSwitch gradSwitch diffuseLinked : Bool) (shaderTree : String)
    (opts : ImportOptions) : List Fixup :=
  if modSwitch then
    if diffuseLinked then Fixup.modulateEmissive :: ppGradTail gradSwitch diffuseLinked shaderTree opts
    else [Fixup.diffuseIndexError]
  else ppGradTail gradSwitch diffuseLinked shaderTree opts

/-- Lines 844-958 of `import_material`: the ordered post-processing
fix-ups applied after `setup_params`, as a trace of effects.
`material_name` is the resolved (suffixed) display name, `ps` the
effective parameter set, `st` the graph state after base resolution,
`shader_node` the root shader node and `shaderTree` its template name.
The vertex-crunch branch returns early, skipping everything else. -/
def post_process (material_name : String) (ps : ParamSet) (st : GraphState)
    (shader_node : Nat) (shaderTree : String) (skinColor : Option RGBA)
    (opts : ImportOptions) : List Fixup :=
  if crunchPred material_name ps.scalars then
    [Fixup.markCrunchVerts, Fixup.zeroAlpha]
  else
    (if shaderTree = "FP Material" then
      [Fixup.setAO opts.ambientOcclusion, Fixup.setCavity opts.cavity,
       Fixup.setSubsurface opts.subsurface]
      ++ (match skinColor with
          | some c => if c.a ≠ 0 then [Fixup.setSkinColor c] else []
          | none => [])
      ++ (if get_param_multiple ps.switches emissive_toggle_names == some false then
            [Fixup.disableEmissive] else [])
      ++ (if pyTruthyOptStr (get_param_tex ps.textures "SRM") then
            [Fixup.swizzleRoughness] else [])
      ++ (if pyTruthyOptBool (get_param ps.switches "Use Vertex Colors for Mask") then
            [Fixup.vertexColorMask] else [])
      ++ (match get_param_multiple ps.vectors emission_crop_vector_params with
          | some crop_bounds =>
            if pyTruthyOptBool (get_param_multiple ps.switches emission_crop_switch_params)
                && linkedInto st shader_node "Emission" then
              [Fixup.emissiveCrop crop_bounds]
            else []
          | none => [])
      ++ ppModTail (pyTruthyOptBool (get_param ps.switches "Modulate Emissive with Diffuse"))
           (pyTruthyOptBool (get_param ps.switches "useGmapGradientLayers"))
           (linkedInto st shader_node "Diffuse") shaderTree opts
    else ppToonTail shaderTree opts)

/-- Spec-words definition for the family-selection claim: the FIRST
family in the order layered, toon, valet, glass, trunk, foliage whose
predicate holds (default otherwise).  Used only to compare against the
source-derived `selectShader`. -/
def spec_first_match_family (flags : MaterialFlags) (textures : List TexParam)
    (switches : List (Pv Bool)) : Family :=
  if layeredPred switches textures then Family.layered
  else if toonPred textures then Family.toon
  else if flags.absoluteParent = some "M_FN_Valet_Master" then Family.valet
  else if pyTruthyOptBool flags.useGlassMaterial then Family.glass
  else if pyTruthyOptBool (get_param switches "IsTrunk") then Family.trunk
  else if pyTruthyOptBool flags.useFoliageMaterial then Family.foliage
  else Family.default

/-- Amended-claim definition: the LAST family in the order layered,
toon, valet, glass, trunk, foliage whose predicate holds (with foliage
still guarded by the trunk switch) determines the mapping table. -/
def spec_last_match_family (flags : MaterialFlags) (textures : List TexParam)
    (switches : List (Pv Bool)) : Family :=
  let is_trunk := pyTruthyOptBool (get_param switches "IsTrunk")
  if pyTruthyOptBool flags.useFoliageMaterial && !is_trunk then Family.foliage
  else if is_trunk then Family.trunk
  else if pyTruthyOptBool flags.useGlassMaterial then Family.glass
  else if flags.absoluteParent = some "M_FN_Valet_Master" then Family.valet
  else if toonPred textures then Family.toon
  else if layeredPred switches textures then Family.layered
  else Family.default

/-- Amended-claim definition for the root template: the last matching
family among layered, toon, valet, glass, foliage replaces the root
template (the trunk branch changes only the mapping table). -/
def spec_last_match_tree (flags : MaterialFlags) (textures : List TexParam)
    (switches : List (Pv Bool)) : String :=
  let is_trunk := pyTruthyOptBool (get_param switches "IsTrunk")
  if pyTruthyOptBool flags.useFoliageMaterial && !is_trunk then "FP Foliage"
  else if pyTruthyOptBool flags.useGlassMaterial then "FP Glass"
  else if flags.absoluteParent = some "M_FN_Valet_Master" then "FP Valet"
  else if toonPred textures then "FP Toon"
  else if layeredPred switches textures then "FP Layer"
  else "FP Material"

/-- Spec-words definition for the merge claim: replace only the FIRST
entry with equal name, else append.  Used only to compare against the
source-derived `replace_or_add_parameter`. -/
def spec_replace_first_or_add (getName : α → String) (l : List α) (it : α) : List α :=
  match l with
  | [] => [it]
  | x :: xs =>
    if getName x = getName it then it :: xs
    else x :: spec_replace_first_or_add getName xs it

/-- Numeric value of a hexadecimal digit character. -/
def hexDigitVal (c : Char) : Nat :=
  if 97 ≤ c.toNat then c.toNat - 87 else c.toNat - 48

/-- Decode a big-endian hexadecimal digit list. -/
def hexVal (cs : List Char) : Nat :=
  cs.foldl (fun a c => 16 * a + hexDigitVal c) 0

/-- The effect of a caught exception: the only state change is one log
entry (`traceback.print_exc`). -/
def bumpLog (st : GraphState) : GraphState :=
  { st with logs := st.logs + 1 }

/-
Theorems.
-/

/-- Claim C1: within one run, importing two materials with identical
effective descriptor and override context (hence equal fingerprints)
constructs the underlying graph at most once — the second
`import_material` call finds the fingerprint in the run cache, builds
nothing, and assigns the reference-identical material handle. -/
theorem import_material_cache_identity
    (st : RunState) (name : String) (h : Int)
    (td : List TextureDataEntry) (ops : List OverrideParamSet) :
    import_material_cache_step (import_material_cache_step st name h td ops).1 name h td ops
      = ((import_material_cache_step st name h td ops).1,
         (import_material_cache_step st name h td ops).2.1, false) := by
  unfold import_material_cache_step
  cases hfind : cacheGet st (fingerprint h (additionalHash td ops name)) with
  | some e => simp [hfind]
  | none =>
    simp only [hfind]
    have h2 : cacheGet
        { imported_materials := st.imported_materials
            ++ [(fingerprint h (additionalHash td ops name), st.nextHandle)],
          nextHandle := st.nextHandle + 1 }
        (fingerprint h (additionalHash td ops name)) = some st.nextHandle := by
      unfold cacheGet at hfind ⊢
      have hnone : st.imported_materials.find?
          (fun e => e.1 = fingerprint h (additionalHash td ops name)) = none := by
        cases hf : st.imported_materials.find?
            (fun e => e.1 = fingerprint h (additionalHash td ops name)) with
        | none => rfl
        | some v => rw [hf] at hfind; simp at hfind
      simp [List.find?_append, hnone]
    simp [h2]

/-- Decoding a digit produced by `hexDigit` recovers the digit. -/
theorem hexDigitVal_hexDigit : ∀ m, m < 16 → hexDigitVal (hexDigit m) = m := by
  decide

/-- `hexVal` of an appended digit. -/
theorem hexVal_append_singleton (cs : List Char) (c : Char) :
    hexVal (cs ++ [c]) = 16 * hexVal cs + hexDigitVal c := by
  simp [hexVal, List.foldl_append]

/-- `hexVal` decodes `hexDigits`. -/
theorem hexVal_hexDigits (n : Nat) : hexVal (hexDigits n) = n := by
  induction n using Nat.strong_induction_on with
  | _ n ih =>
    unfold hexDigits
    by_cases h : n < 16
    · simp [h, hexVal, hexDigitVal_hexDigit n h]
    · have hpos : 0 < n := by omega
      have hdiv : n / 16 < n := Nat.div_lt_self hpos (by omega)
      simp only [h, dif_neg, not_false_iff]
      rw [hexVal_append_singleton, ih (n / 16) hdiv,
        hexDigitVal_hexDigit (n % 16) (Nat.mod_lt n (by omega))]
      omega

/-- `hexDigits` is injective. -/
theorem hexDigits_inj {m n : Nat} (h : hexDigits m = hexDigits n) : m = n := by
  have := congrArg hexVal h
  rwa [hexVal_hexDigits, hexVal_hexDigits] at this

/-- `hexDigits` never produces the empty list. -/
theorem hexDigits_ne_nil (n : Nat) : hexDigits n ≠ [] := by
  unfold hexDigits
  by_cases h : n < 16 <;> simp [h]

/-- `hash_code` depends only on the absolute value. -/
theorem hash_code_eq_iff {a b : Int} : hash_code a = hash_code b ↔ a.natAbs = b.natAbs := by
  constructor
  · intro h
    have hd := congrArg String.data h
    exact hexDigits_inj hd
  · intro h
    unfold hash_code
    rw [h]

/-- Claim C10: the display-name suffix token is the hexadecimal encoding
of the absolute value of the accumulated override-hash sum, so the sums
`n` and `-n` produce the identical display name token (and identical
resolved display names) while producing different fingerprints. -/
theorem hash_code_abs_collision (n : Int) (hn : n ≠ 0) :
    (hash_code n).data = hexDigits n.natAbs
    ∧ hash_code n = hash_code (-n)
    ∧ (∀ (base : Int) (name : String),
        resolvedName name n = resolvedName name (-n)
        ∧ fingerprint base n ≠ fingerprint base (-n)) := by
  refine ⟨rfl, ?_, ?_⟩
  · rw [hash_code_eq_iff, Int.natAbs_neg]
  · intro base name
    constructor
    · unfold resolvedName
      have hn2 : (-n : Int) ≠ 0 := by omega
      rw [if_pos hn, if_pos hn2, hash_code_eq_iff.mpr (Int.natAbs_neg n).symm]
    · unfold fingerprint
      have hn2 : (-n : Int) ≠ 0 := by omega
      rw [if_pos hn, if_pos hn2]
      omega

/-- Witness for C10 at `n = 5`, base hash 7, name `"M"`. -/
theorem hash_code_abs_collision_witness :
    (5 : Int) ≠ 0
    ∧ hash_code 5 = hash_code (-5)
    ∧ resolvedName "M" 5 = resolvedName "M" (-5)
    ∧ fingerprint 7 5 ≠ fingerprint 7 (-5) :=
  ⟨by decide,
   (hash_code_abs_collision 5 (by decide)).2.1,
   ((hash_code_abs_collision 5 (by decide)).2.2 7 "M").1,
   ((hash_code_abs_collision 5 (by decide)).2.2 7 "M").2⟩

/-- String append acts as list append on the character data. -/
theorem string_append_data (a b : String) : (a ++ b).data = a.data ++ b.data :=
  rfl

/-- The length of a `hash_code` token is at least one character. -/
theorem hash_code_length_pos (n : Int) : 0 < (hash_code n).length := by
  unfold hash_code
  show 0 < (hexDigits n.natAbs).length
  cases hx : hexDigits n.natAbs with
  | nil => exact absurd hx (hexDigits_ne_nil _)
  | cons c cs => simp

/-- Distinct fingerprints arise from distinct accumulated override
hashes. -/
theorem fingerprint_ne (m s1 s2 : Int) (h : s2 ≠ s1) :
    fingerprint m s2 ≠ fingerprint m s1 := by
  unfold fingerprint
  split_ifs <;> omega

/-- Distinct resolved display names arise from accumulated override
hashes that are neither equal nor negatives of each other. -/
theorem resolvedName_ne (name : String) (s1 s2 : Int)
    (h1 : s2 ≠ s1) (h2 : s2 ≠ -s1) :
    resolvedName name s2 ≠ resolvedName name s1 := by
  unfold resolvedName
  by_cases hz2 : s2 = 0 <;> by_cases hz1 : s1 = 0
  · omega
  · rw [if_neg (by omega : ¬s2 ≠ 0), if_pos (by omega : s1 ≠ 0)]
    intro h
    have hlen := congrArg String.length h
    rw [String.length_append, String.length_append] at hlen
    have hp := hash_code_length_pos s1
    have hu : ("_" : String).length = 1 := rfl
    rw [hu] at hlen
    omega
  · rw [if_pos (by omega : s2 ≠ 0), if_neg (by omega : ¬s1 ≠ 0)]
    intro h
    have hlen := congrArg String.length h
    rw [String.length_append, String.length_append] at hlen
    have hp := hash_code_length_pos s2
    have hu : ("_" : String).length = 1 := rfl
    rw [hu] at hlen
    omega
  · rw [if_pos (by omega : s2 ≠ 0), if_pos (by omega : s1 ≠ 0)]
    intro h
    have hd := congrArg String.data h
    rw [string_append_data, string_append_data, string_append_data,
      string_append_data] at hd
    have hcodes : hash_code s2 = hash_code s1 :=
      String.ext (List.append_cancel_left hd)
    have habs := hash_code_eq_iff.mp hcodes
    rcases Int.natAbs_eq_natAbs_iff.mp habs with hc | hc
    · exact h1 hc
    · exact h2 hc

/-- Appending one more override layer adds its hash to the accumulated
contribution. -/
theorem additionalHash_append (td : List TextureDataEntry) (e : TextureDataEntry)
    (ops : List OverrideParamSet) (name : String) :
    additionalHash (td ++ [e]) ops name = additionalHash td ops name + e.hash := by
  unfold additionalHash
  simp [List.sum_append]
  omega

/-- Counterexample to claim C4: an additional applicable override layer
whose own hash contribution is 0 changes neither the fingerprint nor the
display name, and a layer with hash -10 on top of a layer with hash 5
changes the fingerprint but leaves the display-name token identical
(hex of the absolute value). -/
theorem extra_layer_same_fingerprint_counterexample :
    additionalHash [⟨0, none, none, none⟩] [] "M" = additionalHash [] [] "M"
    ∧ fingerprint 7 (additionalHash [⟨0, none, none, none⟩] [] "M")
        = fingerprint 7 (additionalHash [] [] "M")
    ∧ resolvedName "M" (additionalHash [⟨0, none, none, none⟩] [] "M")
        = resolvedName "M" (additionalHash [] [] "M")
    ∧ fingerprint 7 (additionalHash [⟨5, none, none, none⟩, ⟨-10, none, none, none⟩] [] "M")
        ≠ fingerprint 7 (additionalHash [⟨5, none, none, none⟩] [] "M")
    ∧ resolvedName "M" (additionalHash [⟨5, none, none, none⟩, ⟨-10, none, none, none⟩] [] "M")
        = resolvedName "M" (additionalHash [⟨5, none, none, none⟩] [] "M") := by
  refine ⟨rfl, rfl, rfl, by decide, ?_⟩
  show resolvedName "M" (-5) = resolvedName "M" 5
  unfold resolvedName
  rw [if_pos (by decide : (-5 : Int) ≠ 0), if_pos (by decide : (5 : Int) ≠ 0)]
  exact congrArg (fun t => "M" ++ "_" ++ t) (hash_code_eq_iff.mpr (by decide))

/-- Appending one more override-parameter set whose
`MaterialNameToAlter` matches the current material adds its hash to the
accumulated contribution. -/
theorem additionalHash_append_ops (td : List TextureDataEntry)
    (ops : List OverrideParamSet) (p : OverrideParamSet) (name : String)
    (happ : p.materialNameToAlter = name) :
    additionalHash td (ops ++ [p]) name = additionalHash td ops name + p.hash := by
  unfold additionalHash
  simp [List.filter_append, happ]
  omega

/-- Claim C4 as amended: an additional applicable override layer — a
texture-data entry `e`, or an override-parameter set `p` whose
`MaterialNameToAlter` matches the material — adds its own hash `h` to
the accumulated contribution `s`; the fingerprints then differ provided
`h` is non-zero, and the resolved display names differ provided
moreover `h` is not `-2 * s` (the hex token encodes the absolute
value). -/
theorem fingerprint_sensitivity_amended (name : String) (mhash : Int)
    (td : List TextureDataEntry) (ops : List OverrideParamSet)
    (e : TextureDataEntry) (p : OverrideParamSet)
    (happ : p.materialNameToAlter = name) :
    additionalHash (td ++ [e]) ops name = additionalHash td ops name + e.hash
    ∧ (e.hash ≠ 0 →
        fingerprint mhash (additionalHash (td ++ [e]) ops name)
          ≠ fingerprint mhash (additionalHash td ops name))
    ∧ (e.hash ≠ 0 → e.hash ≠ -(2 * additionalHash td ops name) →
        resolvedName name (additionalHash (td ++ [e]) ops name)
          ≠ resolvedName name (additionalHash td ops name))
    ∧ additionalHash td (ops ++ [p]) name = additionalHash td ops name + p.hash
    ∧ (p.hash ≠ 0 →
        fingerprint mhash (additionalHash td (ops ++ [p]) name)
          ≠ fingerprint mhash (additionalHash td ops name))
    ∧ (p.hash ≠ 0 → p.hash ≠ -(2 * additionalHash td ops name) →
        resolvedName name (additionalHash td (ops ++ [p]) name)
          ≠ resolvedName name (additionalHash td ops name)) := by
  have hsum := additionalHash_append td e ops name
  have hsump := additionalHash_append_ops td ops p name happ
  refine ⟨hsum, ?_, ?_, hsump, ?_, ?_⟩
  · intro hnz
    rw [hsum]
    exact fingerprint_ne mhash _ _ (by omega)
  · intro hnz h2
    rw [hsum]
    exact resolvedName_ne name _ _ (by omega) (by omega)
  · intro hnz
    rw [hsump]
    exact fingerprint_ne mhash _ _ (by omega)
  · intro hnz h2
    rw [hsump]
    exact resolvedName_ne name _ _ (by omega) (by omega)

/-- Witness for the amended C4: a texture-data layer with hash 3 and a
matching override-parameter-set layer with hash 4, each on an empty base
context. -/
theorem fingerprint_sensitivity_amended_witness :
    (⟨"M", 4, [], [], []⟩ : OverrideParamSet).materialNameToAlter = "M"
    ∧ additionalHash [⟨3, none, none, none⟩] [] "M" = additionalHash [] [] "M" + 3
    ∧ fingerprint 7 (additionalHash [⟨3, none, none, none⟩] [] "M")
        ≠ fingerprint 7 (additionalHash [] [] "M")
    ∧ resolvedName "M" (additionalHash [⟨3, none, none, none⟩] [] "M")
        ≠ resolvedName "M" (additionalHash [] [] "M")
    ∧ additionalHash [] [⟨"M", 4, [], [], []⟩] "M" = additionalHash [] [] "M" + 4
    ∧ fingerprint 7 (additionalHash [] [⟨"M", 4, [], [], []⟩] "M")
        ≠ fingerprint 7 (additionalHash [] [] "M")
    ∧ resolvedName "M" (additionalHash [] [⟨"M", 4, [], [], []⟩] "M")
        ≠ resolvedName "M" (additionalHash [] [] "M") := by
  have h := fingerprint_sensitivity_amended "M" 7 [] [] ⟨3, none, none, none⟩
    ⟨"M", 4, [], [], []⟩ rfl
  exact ⟨rfl, h.1, h.2.1 (by decide), h.2.2.1 (by decide) (by decide),
    h.2.2.2.1, h.2.2.2.2.1 (by decide), h.2.2.2.2.2 (by decide) (by decide)⟩

/-- The replacement map leaves the name list unchanged. -/
theorem any_map_replace (getName : α → String) (it : α) (l : List α) :
    (l.map (fun x => if getName x = getName it then it else x)).any
        (fun x => getName x = getName it)
      = l.any (fun x => getName x = getName it) := by
  induction l with
  | nil => rfl
  | cons x xs ih =>
    by_cases hx : getName x = getName it <;> simp [hx, ih]

/-- When no entry matches, the replacement map is the identity. -/
theorem map_replace_of_not_any (getName : α → String) (it : α) (l : List α)
    (h : l.any (fun x => getName x = getName it) = false) :
    l.map (fun x => if getName x = getName it then it else x) = l := by
  induction l with
  | nil => rfl
  | cons x xs ih =>
    simp only [List.any_cons, Bool.or_eq_false_iff] at h
    simp only [List.map_cons, if_neg (by simpa using h.1), ih h.2]

/-- Counterexample to claim C3: on a kind-sequence that already holds
two entries named "D", the source replaces BOTH entries, not only the
first one as the claim states. -/
theorem replace_first_counterexample :
    replace_or_add_parameter Pv.name
        [(⟨"D", "A"⟩ : Pv String), ⟨"D", "C"⟩] (some ⟨"D", "B"⟩)
      = [⟨"D", "B"⟩, ⟨"D", "B"⟩]
    ∧ spec_replace_first_or_add Pv.name
        [(⟨"D", "A"⟩ : Pv String), ⟨"D", "C"⟩] ⟨"D", "B"⟩
      = [⟨"D", "B"⟩, ⟨"D", "C"⟩]
    ∧ replace_or_add_parameter Pv.name
        [(⟨"D", "A"⟩ : Pv String), ⟨"D", "C"⟩] (some ⟨"D", "B"⟩)
      ≠ spec_replace_first_or_add Pv.name
        [(⟨"D", "A"⟩ : Pv String), ⟨"D", "C"⟩] ⟨"D", "B"⟩ := by
  refine ⟨rfl, rfl, by decide⟩

/-- Claim C3 as amended: merging one override entry into a kind-sequence
replaces EVERY existing entry with equal name (not only the first), else
appends the entry at the end; in particular merging base
Diffuse=A with override Diffuse=B yields exactly one "Diffuse" entry,
whose value is "B". -/
theorem replace_or_add_parameter_amended :
    (∀ (α : Type) (getName : α → String) (l : List α) (it : α),
      replace_or_add_parameter getName l (some it)
        = if l.any (fun x => getName x = getName it)
          then l.map (fun x => if getName x = getName it then it else x)
          else l ++ [it])
    ∧ replace_or_add_parameter Pv.name
        [(⟨"Diffuse", "A"⟩ : Pv String)] (some ⟨"Diffuse", "B"⟩)
      = [⟨"Diffuse", "B"⟩]
    ∧ (replace_or_add_parameter Pv.name
        [(⟨"Diffuse", "A"⟩ : Pv String)] (some ⟨"Diffuse", "B"⟩)).countP
          (fun x => x.name = "Diffuse") = 1 := by
  refine ⟨?_, rfl, rfl⟩
  intro α getName l it
  simp only [replace_or_add_parameter]
  rw [any_map_replace]
  by_cases h : l.any (fun x => getName x = getName it)
  · simp [h]
  · rw [if_neg (by simpa using h), if_neg (by simpa using h),
      map_replace_of_not_any getName it l (by simpa using h)]

/-- Replacing same-named entries does not change the name list. -/
theorem map_getName_replace (getName : α → String) (it : α) (l : List α) :
    (l.map (fun x => if getName x = getName it then it else x)).map getName
      = l.map getName := by
  induction l with
  | nil => rfl
  | cons x xs ih =>
    by_cases hx : getName x = getName it <;> simp [hx, ih]

/-- One `replace_or_add_parameter` step leaves the name list unchanged
or appends a fresh name; in both cases name-uniqueness is preserved. -/
theorem replace_or_add_parameter_nodup (getName : α → String) (l : List α)
    (item : Option α) (h : (l.map getName).Nodup) :
    ((replace_or_add_parameter getName l item).map getName).Nodup := by
  cases item with
  | none => exact h
  | some it =>
    simp only [replace_or_add_parameter]
    rw [any_map_replace]
    by_cases hany : l.any (fun x => getName x = getName it)
    · rw [if_pos hany, map_getName_replace]
      exact h
    · rw [if_neg hany, map_replace_of_not_any getName it l (by simpa using hany)]
      rw [List.map_append]
      rw [List.nodup_append]
      refine ⟨h, List.nodup_singleton _, ?_⟩
      intro a ha hb
      simp only [List.map_cons, List.map_nil, List.mem_singleton] at hb
      subst hb
      simp only [List.any_eq_true, not_exists, not_and] at hany
      rcases List.mem_map.mp ha with ⟨x, hx, hgx⟩
      exact absurd (by simpa [hgx] using hany) (by
        intro hall
        exact (by simpa [hgx] using hall x hx : False))

/-- Folding preserves any invariant preserved by each step. -/
theorem foldl_invariant (P : β → Prop) (step : β → γ → β)
    (hstep : ∀ b a, P b → P (step b a)) :
    ∀ (l : List γ) (b : β), P b → P (l.foldl step b) := by
  intro l
  induction l with
  | nil => intro b hb; exact hb
  | cons x xs ih => intro b hb; exact ih (step b x) (hstep b x hb)

/-- `mergeTextureData` preserves name-uniqueness. -/
theorem mergeTextureData_nodup (textures : List TexParam)
    (td : List TextureDataEntry) (h : (textures.map TexParam.name).Nodup) :
    ((mergeTextureData textures td).map TexParam.name).Nodup := by
  unfold mergeTextureData
  refine foldl_invariant (fun l2 => (l2.map TexParam.name).Nodup) _ ?_ td textures h
  intro b a hb
  exact replace_or_add_parameter_nodup _ _ _
    (replace_or_add_parameter_nodup _ _ _
      (replace_or_add_parameter_nodup _ _ _ hb))

/-- `mergeOverrideTextures` preserves name-uniqueness. -/
theorem mergeOverrideTextures_nodup (textures : List TexParam)
    (ops : List OverrideParamSet) (h : (textures.map TexParam.name).Nodup) :
    ((mergeOverrideTextures textures ops).map TexParam.name).Nodup := by
  unfold mergeOverrideTextures
  refine foldl_invariant (fun l2 => (l2.map TexParam.name).Nodup) _ ?_ ops textures h
  intro b a hb
  refine foldl_invariant (fun l2 => (l2.map TexParam.name).Nodup) _ ?_ a.textures b hb
  intro b2 a2 hb2
  exact replace_or_add_parameter_nodup _ _ _ hb2

/-- `mergeOverridePvs` preserves name-uniqueness. -/
theorem mergeOverridePvs_nodup {α : Type} (base : List (Pv α))
    (layers : List (List (Pv α))) (h : (base.map Pv.name).Nodup) :
    ((mergeOverridePvs base layers).map Pv.name).Nodup := by
  unfold mergeOverridePvs
  refine foldl_invariant (fun l2 => (l2.map Pv.name).Nodup) _ ?_ layers base h
  intro b a hb
  refine foldl_invariant (fun l2 => (l2.map Pv.name).Nodup) _ ?_ a b hb
  intro b2 a2 hb2
  exact replace_or_add_parameter_nodup _ _ _ hb2

/-- Claim C9: if the base parameter set has unique names within each
kind-sequence, then after the full override merge every kind-sequence of
the effective parameter set again contains no two entries with the same
name. -/
theorem effective_params_nodup (base : ParamSet) (td : List TextureDataEntry)
    (ops : List OverrideParamSet)
    (ht : (base.textures.map TexParam.name).Nodup)
    (hs : (base.scalars.map Pv.name).Nodup)
    (hv : (base.vectors.map Pv.name).Nodup)
    (hw : (base.switches.map Pv.name).Nodup)
    (hm : (base.component_masks.map Pv.name).Nodup) :
    ((effectiveParams base td ops).textures.map TexParam.name).Nodup
    ∧ ((effectiveParams base td ops).scalars.map Pv.name).Nodup
    ∧ ((effectiveParams base td ops).vectors.map Pv.name).Nodup
    ∧ ((effectiveParams base td ops).switches.map Pv.name).Nodup
    ∧ ((effectiveParams base td ops).component_masks.map Pv.name).Nodup := by
  refine ⟨?_, ?_, ?_, hw, hm⟩
  · exact mergeOverrideTextures_nodup _ _ (mergeTextureData_nodup _ _ ht)
  · exact mergeOverridePvs_nodup _ _ hs
  · exact mergeOverridePvs_nodup _ _ hv

/-- Witness for C9: a two-texture base merged with a `TextureData` layer
that overrides the diffuse slot and an override-parameter set that adds
a scalar. -/
theorem effective_params_nodup_witness :
    (([⟨"Diffuse", "/d.d", true⟩, ⟨"Normals", "/n.n", false⟩] : List TexParam).map
        TexParam.name).Nodup
    ∧ ((effectiveParams
        ⟨[⟨"Diffuse", "/d.d", true⟩, ⟨"Normals", "/n.n", false⟩],
          [⟨"Rough", 1⟩], [], [], []⟩
        [⟨3, some ⟨"Diffuse", "/x.x", true⟩, none, none⟩]
        [⟨"M", 5, [], [⟨"Glow", 2⟩], []⟩]).scalars.map Pv.name).Nodup :=
  ⟨by decide,
   (effective_params_nodup
      ⟨[⟨"Diffuse", "/d.d", true⟩, ⟨"Normals", "/n.n", false⟩],
        [⟨"Rough", 1⟩], [], [], []⟩
      [⟨3, some ⟨"Diffuse", "/x.x", true⟩, none, none⟩]
      [⟨"M", 5, [], [⟨"Glow", 2⟩], []⟩]
      (by decide) (by decide) (by decide) (by decide) (by decide)).2.1⟩

/-- Counterexample to claim C2: a parameter set satisfying both the
layered predicate and the toon predicate is given the TOON template and
mapping table (the later match), not the layered one that the
first-match rule of the claim would select. -/
theorem family_first_match_counterexample :
    layeredPred [⟨"Use 2 Layers", true⟩]
        [⟨"LitDiffuse", "/T.T", true⟩, ⟨"Diffuse_Texture_2", "/D2.D2", true⟩] = true
    ∧ toonPred [⟨"LitDiffuse", "/T.T", true⟩, ⟨"Diffuse_Texture_2", "/D2.D2", true⟩] = true
    ∧ spec_first_match_family ⟨none, none, none⟩
        [⟨"LitDiffuse", "/T.T", true⟩, ⟨"Diffuse_Texture_2", "/D2.D2", true⟩]
        [⟨"Use 2 Layers", true⟩] = Family.layered
    ∧ (selectShader ⟨none, none, none⟩
        [⟨"LitDiffuse", "/T.T", true⟩, ⟨"Diffuse_Texture_2", "/D2.D2", true⟩]
        [⟨"Use 2 Layers", true⟩]).mappings = Family.toon
    ∧ (selectShader ⟨none, none, none⟩
        [⟨"LitDiffuse", "/T.T", true⟩, ⟨"Diffuse_Texture_2", "/D2.D2", true⟩]
        [⟨"Use 2 Layers", true⟩]).shaderTree = "FP Toon"
    ∧ Family.toon ≠ Family.layered :=
  ⟨rfl, rfl, rfl, rfl, rfl, by decide⟩

/-- Claim C2 as amended: the family-selection block is a chain of
independent overwrites, so the LAST family in the order layered, toon,
valet, glass, trunk, foliage whose predicate holds supplies the mapping
table, and the last match among layered, toon, valet, glass, foliage
(trunk replaces no template) supplies the root template. -/
theorem select_shader_last_match (flags : MaterialFlags)
    (textures : List TexParam) (switches : List (Pv Bool)) :
    (selectShader flags textures switches).mappings
      = spec_last_match_family flags textures switches
    ∧ (selectShader flags textures switches).shaderTree
      = spec_last_match_tree flags textures switches := by
  unfold selectShader spec_last_match_family spec_last_match_tree
  by_cases hL : layeredPred switches textures = true <;>
  by_cases hT : toonPred textures = true <;>
  by_cases hV : flags.absoluteParent = some "M_FN_Valet_Master" <;>
  by_cases hG : pyTruthyOptBool flags.useGlassMaterial = true <;>
  by_cases hK : pyTruthyOptBool (get_param switches "IsTrunk") = true <;>
  by_cases hF : pyTruthyOptBool flags.useFoliageMaterial = true <;>
  simp_all

/-- Claim C6: with the trunk switch set, the trunk mapping table is
selected even when the foliage flag is also set; the foliage family is
never selected — its root-template replacement and subsurface side
effect do not occur. -/
theorem trunk_beats_foliage (flags : MaterialFlags)
    (textures : List TexParam) (switches : List (Pv Bool))
    (hfol : pyTruthyOptBool flags.useFoliageMaterial = true)
    (htr : pyTruthyOptBool (get_param switches "IsTrunk") = true) :
    (selectShader flags textures switches).mappings = Family.trunk
    ∧ tableOf (selectShader flags textures switches).mappings = trunk_mappings
    ∧ (selectShader flags textures switches).shaderTree ≠ "FP Foliage"
    ∧ (selectShader flags textures switches).useSSS = false := by
  unfold selectShader
  by_cases hL : layeredPred switches textures = true <;>
  by_cases hT : toonPred textures = true <;>
  by_cases hV : flags.absoluteParent = some "M_FN_Valet_Master" <;>
  by_cases hG : pyTruthyOptBool flags.useGlassMaterial = true <;>
  simp_all <;> rfl

/-- Witness for C6: `IsTrunk` and `UseFoliageMaterial` both set. -/
theorem trunk_beats_foliage_witness :
    pyTruthyOptBool (⟨none, none, some true⟩ : MaterialFlags).useFoliageMaterial = true
    ∧ pyTruthyOptBool (get_param [(⟨"IsTrunk", true⟩ : Pv Bool)] "IsTrunk") = true
    ∧ (selectShader ⟨none, none, some true⟩ [] [⟨"IsTrunk", true⟩]).mappings = Family.trunk
    ∧ (selectShader ⟨none, none, some true⟩ [] [⟨"IsTrunk", true⟩]).shaderTree ≠ "FP Foliage"
    ∧ (selectShader ⟨none, none, some true⟩ [] [⟨"IsTrunk", true⟩]).useSSS = false := by
  have h := trunk_beats_foliage ⟨none, none, some true⟩ [] [⟨"IsTrunk", true⟩] rfl rfl
  exact ⟨rfl, rfl, h.1, h.2.2.1, h.2.2.2⟩

/-- Claim C5: when the resolved material name is a vertex-crunch
sentinel or the scalar `HT_CrunchVerts` equals 1, post-processing marks
the crunch flag, zeroes the Alpha input, and performs no other fix-up:
no AO/Cavity/Subsurface assignment, no emissive-disable, no roughness
swizzle, no gradient sub-graph, no toon brightness. -/
theorem crunch_short_circuit (material_name : String) (ps : ParamSet)
    (st : GraphState) (shader_node : Nat) (shaderTree : String)
    (skinColor : Option RGBA) (opts : ImportOptions)
    (hc : crunchPred material_name ps.scalars = true) :
    post_process material_name ps st shader_node shaderTree skinColor opts
      = [Fixup.markCrunchVerts, Fixup.zeroAlpha]
    ∧ (∀ v, Fixup.setAO v ∉ post_process material_name ps st shader_node shaderTree skinColor opts)
    ∧ (∀ v, Fixup.setCavity v ∉ post_process material_name ps st shader_node shaderTree skinColor opts)
    ∧ (∀ v, Fixup.setSubsurface v ∉ post_process material_name ps st shader_node shaderTree skinColor opts)
    ∧ Fixup.disableEmissive ∉ post_process material_name ps st shader_node shaderTree skinColor opts
    ∧ Fixup.swizzleRoughness ∉ post_process material_name ps st shader_node shaderTree skinColor opts
    ∧ Fixup.gradientSubGraph ∉ post_process material_name ps st shader_node shaderTree skinColor opts
    ∧ (∀ v, Fixup.toonBrightness v ∉ post_process material_name ps st shader_node shaderTree skinColor opts) := by
  have he : post_process material_name ps st shader_node shaderTree skinColor opts
      = [Fixup.markCrunchVerts, Fixup.zeroAlpha] := by
    unfold post_process
    rw [if_pos hc]
  rw [he]
  refine ⟨rfl, ?_, ?_, ?_, by decide, by decide, by decide, ?_⟩ <;>
    intro v <;> simp

/-- Witness for C5 at the sentinel name `"M_VertexCrunch"`. -/
theorem crunch_short_circuit_witness :
    crunchPred "M_VertexCrunch" ([] : List (Pv Rat)) = true
    ∧ post_process "M_VertexCrunch" ⟨[], [], [], [], []⟩ {} 1 "FP Material" none
        ⟨1, 1, 1, 1⟩ = [Fixup.markCrunchVerts, Fixup.zeroAlpha]
    ∧ Fixup.disableEmissive ∉ post_process "M_VertexCrunch" ⟨[], [], [], [], []⟩ {} 1
        "FP Material" none ⟨1, 1, 1, 1⟩ := by
  have h := crunch_short_circuit "M_VertexCrunch" ⟨[], [], [], [], []⟩ {} 1
    "FP Material" none ⟨1, 1, 1, 1⟩ (by decide)
  exact ⟨by decide, h.1, h.2.2.2.2.1⟩

/-- Updating the just-appended node rewrites only that node. -/
theorem mapIdx_update_last {α : Type} (l : List α) (g : Nat → α → α)
    (h : ∀ i x, i < l.length → g i x = x) (n : α) :
    (l ++ [n]).mapIdx g = l ++ [g l.length n] := by
  induction l generalizing g with
  | nil => simp [List.mapIdx_cons]
  | cons x xs ih =>
    rw [List.cons_append, List.mapIdx_cons, h 0 x (by simp)]
    rw [ih (fun i a => g (i + 1) a) (fun i a hi => h (i + 1) a (by simpa using hi))]
    simp

/-- `updateNode` applied to the node just appended by `appendNode`. -/
theorem updateNode_appendNode (st : GraphState) (n : Node) (f : Node → Node) :
    updateNode (appendNode st n) st.nodes.length f = appendNode st (f n) := by
  unfold updateNode appendNode
  congr 1
  rw [mapIdx_update_last st.nodes _ (fun i x hi => if_neg (by omega)) n]
  simp

/-- Caught exceptions commute with `texture_param`: bumping the log
count first and resolving then is the same as resolving and bumping. -/
theorem texture_param_bumpLog (img : String → Option String)
    (target_mappings : MappingCollection) (target_node : Nat)
    (add_unused_params : Bool) (st : GraphState) (data : TexParam) :
    texture_param img target_mappings target_node add_unused_params (bumpLog st) data
      = bumpLog (texture_param img target_mappings target_node add_unused_params st data) := by
  unfold texture_param
  cases img data.value with
  | none => rfl
  | some iname =>
    cases first target_mappings.textures (fun x => x.name = data.name) with
    | none => cases add_unused_params <;> rfl
    | some m =>
      obtain ⟨mname, mslot, maslot, msslot, mvf, mcoords⟩ := m
      cases maslot <;> cases msslot <;>
        first
          | rfl
          | (by_cases hc : mcoords ≠ "UV0" <;> simp [hc, bumpLog, appendNode, addLink, updateNode])

/-- Caught exceptions commute with `scalar_param`. -/
theorem scalar_param_bumpLog (target_mappings : MappingCollection) (target_node : Nat)
    (add_unused_params : Bool) (st : GraphState) (data : Pv Rat) :
    scalar_param target_mappings target_node add_unused_params (bumpLog st) data
      = bumpLog (scalar_param target_mappings target_node add_unused_params st data) := by
  unfold scalar_param
  cases first target_mappings.scalars (fun x => x.name = data.name) with
  | none => cases add_unused_params <;> rfl
  | some m =>
    obtain ⟨mname, mslot, maslot, msslot, mvf, mcoords⟩ := m
    cases mvf with
    | none => cases msslot <;> rfl
    | some f =>
      cases hfv : f data.value with
      | error e => dsimp only; rw [hfv]; rfl
      | ok v => dsimp only; rw [hfv]; cases msslot <;> rfl

/-- Caught exceptions commute with `vector_param`. -/
theorem vector_param_bumpLog (target_mappings : MappingCollection) (target_node : Nat)
    (add_unused_params : Bool) (st : GraphState) (data : Pv RGBA) :
    vector_param target_mappings target_node add_unused_params (bumpLog st) data
      = bumpLog (vector_param target_mappings target_node add_unused_params st data) := by
  unfold vector_param
  cases first target_mappings.vectors (fun x => x.name = data.name) with
  | none => cases add_unused_params <;> rfl
  | some m =>
    obtain ⟨mname, mslot, maslot, msslot, mvf, mcoords⟩ := m
    cases mvf with
    | none => cases maslot <;> cases msslot <;> rfl
    | some f =>
      cases hfv : f data.value with
      | error e => dsimp only; rw [hfv]; rfl
      | ok v => dsimp only; rw [hfv]; cases maslot <;> cases msslot <;> rfl

/-- Caught exceptions commute with `component_mask_param`. -/
theorem component_mask_param_bumpLog (target_mappings : MappingCollection)
    (target_node : Nat) (add_unused_params : Bool) (st : GraphState) (data : Pv RGBA) :
    component_mask_param target_mappings target_node add_unused_params (bumpLog st) data
      = bumpLog (component_mask_param target_mappings target_node add_unused_params st data) := by
  unfold component_mask_param
  cases first target_mappings.component_masks (fun x => x.name = data.name) with
  | none => cases add_unused_params <;> rfl
  | some m =>
    obtain ⟨mname, mslot, maslot, msslot, mvf, mcoords⟩ := m
    cases mvf with
    | none => rfl
    | some f =>
      cases hfv : f data.value with
      | error e => dsimp only; rw [hfv]; rfl
      | ok v => dsimp only; rw [hfv]; rfl

/-- Caught exceptions commute with `switch_param`. -/
theorem switch_param_bumpLog (target_mappings : MappingCollection) (target_node : Nat)
    (add_unused_params : Bool) (st : GraphState) (data : Pv Bool) :
    switch_param target_mappings target_node add_unused_params (bumpLog st) data
      = bumpLog (switch_param target_mappings target_node add_unused_params st data) := by
  unfold switch_param
  cases first target_mappings.switches (fun x => x.name = data.name) with
  | none => cases add_unused_params <;> rfl
  | some m =>
    obtain ⟨mname, mslot, maslot, msslot, mvf, mcoords⟩ := m
    cases mvf with
    | none => rfl
    | some f =>
      cases hfv : f data.value with
      | error e => dsimp only; rw [hfv]; rfl
      | ok v => dsimp only; rw [hfv]; rfl

/-- Caught exceptions commute with whole parameter folds. -/
theorem foldl_bumpLog {γ : Type} (step : GraphState → γ → GraphState)
    (hstep : ∀ st a, step (bumpLog st) a = bumpLog (step st a)) :
    ∀ (l : List γ) (st : GraphState), l.foldl step (bumpLog st) = bumpLog (l.foldl step st) := by
  intro l
  induction l with
  | nil => intro st; rfl
  | cons x xs ih =>
    intro st
    rw [List.foldl_cons, List.foldl_cons, hstep, ih]

/-- Claim C7: a scalar parameter whose declared value transform raises
on its value is caught and logged, and every subsequent parameter of the
same kind and of the later kinds is still resolved exactly as if the
failing parameter were absent; graph construction does not abort. -/
theorem scalar_failure_tolerated (img : String → Option String)
    (mt : MappingCollection) (tgt : Nat) (au : Bool)
    (tex : List TexParam) (pre post : List (Pv Rat))
    (vecs masks : List (Pv RGBA)) (sws : List (Pv Bool))
    (bad : Pv Rat) (m : SlotMapping Rat) (st : GraphState)
    (hm : first mt.scalars (fun x => x.name = bad.name) = some m)
    (herr : ∃ f e, m.value_func = some f ∧ f bad.value = Except.error e) :
    setup_params img mt tgt au ⟨tex, pre ++ bad :: post, vecs, sws, masks⟩ st
      = bumpLog (setup_params img mt tgt au ⟨tex, pre ++ post, vecs, sws, masks⟩ st) := by
  obtain ⟨f, e, hf, he⟩ := herr
  have hbad : ∀ X, scalar_param mt tgt au X bad = bumpLog X := by
    intro X
    unfold scalar_param
    rw [hm]
    dsimp only
    rw [hf]
    dsimp only
    rw [he]
    rfl
  simp only [setup_params, List.foldl_append, List.foldl_cons]
  rw [hbad]
  rw [foldl_bumpLog (scalar_param mt tgt au) (scalar_param_bumpLog mt tgt au) post]
  rw [foldl_bumpLog (vector_param mt tgt au) (vector_param_bumpLog mt tgt au) vecs]
  rw [foldl_bumpLog (component_mask_param mt tgt au) (component_mask_param_bumpLog mt tgt au) masks]
  rw [foldl_bumpLog (switch_param mt tgt au) (switch_param_bumpLog mt tgt au) sws]

/-- Witness for C7: a one-rule table whose transform always raises, with
a second (unmapped) scalar after the failing one. -/
theorem scalar_failure_tolerated_witness :
    first ({ scalars := [SlotMapping.mk "Bad" "Bad" none none
          (some (fun _ => Except.error "boom")) "UV0"] } : MappingCollection).scalars
        (fun x => x.name = (⟨"Bad", 1⟩ : Pv Rat).name)
      = some (SlotMapping.mk "Bad" "Bad" none none
          (some (fun _ => Except.error "boom")) "UV0")
    ∧ setup_params (fun _ => none)
        { scalars := [SlotMapping.mk "Bad" "Bad" none none
            (some (fun _ => Except.error "boom")) "UV0"] } 1 true
        ⟨[], [⟨"Bad", 1⟩, ⟨"Glow", 2⟩], [], [], []⟩ {}
      = bumpLog (setup_params (fun _ => none)
          { scalars := [SlotMapping.mk "Bad" "Bad" none none
              (some (fun _ => Except.error "boom")) "UV0"] } 1 true
          ⟨[], [⟨"Glow", 2⟩], [], [], []⟩ {}) :=
  ⟨rfl,
   scalar_failure_tolerated (fun _ => none)
     { scalars := [SlotMapping.mk "Bad" "Bad" none none
         (some (fun _ => Except.error "boom")) "UV0"] } 1 true
     [] [] [⟨"Glow", 2⟩] [] [] [] ⟨"Bad", 1⟩
     (SlotMapping.mk "Bad" "Bad" none none
       (some (fun _ => Except.error "boom")) "UV0") {} rfl
     ⟨fun _ => Except.error "boom", "boom", rfl, rfl⟩⟩

/-- Counterexample to claim C8: `texture_param` creates the image node
BEFORE the mapping lookup, so a texture parameter with no rule in the
active table, with exposure disabled (as in the nested gradient pass),
still adds a node to the graph. -/
theorem unmapped_texture_adds_node_counterexample :
    first gradient_mappings.textures (fun x => x.name = "SpecularMasks") = none
    ∧ (texture_param (fun p => some p) gradient_mappings 1 false {}
        ⟨"SpecularMasks", "/Game/S.S", false⟩).nodes ≠ ({} : GraphState).nodes := by
  exact ⟨rfl, by decide⟩

/-- Claim C8 as amended: with exposure disabled, an unmapped scalar,
vector, component-mask or switch parameter is dropped silently (graph
state unchanged); an unmapped texture parameter adds exactly one
unlabeled, unwired image node (no link, no slot write, no offset or log
change) because the node is created before the lookup. -/
theorem unmapped_disabled_dropped (mt : MappingCollection) (tgt : Nat)
    (st : GraphState) (img : String → Option String) (iname : String)
    (tp : TexParam) (sp : Pv Rat) (vp : Pv RGBA) (cp : Pv RGBA) (wp : Pv Bool)
    (ht : first mt.textures (fun x => x.name = tp.name) = none)
    (himg : img tp.value = some iname)
    (hs : first mt.scalars (fun x => x.name = sp.name) = none)
    (hv : first mt.vectors (fun x => x.name = vp.name) = none)
    (hc : first mt.component_masks (fun x => x.name = cp.name) = none)
    (hw : first mt.switches (fun x => x.name = wp.name) = none) :
    scalar_param mt tgt false st sp = st
    ∧ vector_param mt tgt false st vp = st
    ∧ component_mask_param mt tgt false st cp = st
    ∧ switch_param mt tgt false st wp = st
    ∧ texture_param img mt tgt false st tp
        = appendNode st { type := "ShaderNodeTexImage", image := some iname, colorspace := some (if tp.sRGB then "sRGB" else "Non-Color") }
    ∧ (texture_param img mt tgt false st tp).links = st.links
    ∧ (texture_param img mt tgt false st tp).slots = st.slots
    ∧ (texture_param img mt tgt false st tp).nodes.length = st.nodes.length + 1 := by
  have htex : texture_param img mt tgt false st tp
      = appendNode st { type := "ShaderNodeTexImage", image := some iname, colorspace := some (if tp.sRGB then "sRGB" else "Non-Color") } := by
    unfold texture_param
    rw [himg]
    dsimp only
    rw [ht]
    dsimp only
    rw [if_neg (by simp)]
    exact updateNode_appendNode st _ _
  refine ⟨?_, ?_, ?_, ?_, htex, ?_, ?_, ?_⟩
  · unfold scalar_param; rw [hs]; dsimp only; rw [if_neg (by simp)]
  · unfold vector_param; rw [hv]; dsimp only; rw [if_neg (by simp)]
  · unfold component_mask_param; rw [hc]; dsimp only; rw [if_neg (by simp)]
  · unfold switch_param; rw [hw]; dsimp only; rw [if_neg (by simp)]
  · rw [htex]; rfl
  · rw [htex]; rfl
  · rw [htex]; simp [appendNode]

/-- Witness for the amended C8 in the nested gradient context: the
gradient table has no rule for the texture "SpecularMasks", the scalar
"CustomGlow", the vector "Tint", the mask "ChanMask" or the switch
"Flip". -/
theorem unmapped_disabled_dropped_witness :
    first gradient_mappings.scalars (fun x => x.name = "CustomGlow") = none
    ∧ scalar_param gradient_mappings 1 false {} ⟨"CustomGlow", 3⟩ = {}
    ∧ (texture_param (fun p => some p) gradient_mappings 1 false {}
        ⟨"SpecularMasks", "/Game/S.S", false⟩).links = ({} : GraphState).links
    ∧ (texture_param (fun p => some p) gradient_mappings 1 false {}
        ⟨"SpecularMasks", "/Game/S.S", false⟩).nodes.length
        = ({} : GraphState).nodes.length + 1 := by
  have h := unmapped_disabled_dropped gradient_mappings 1 {} (fun p => some p)
    "/Game/S.S" ⟨"SpecularMasks", "/Game/S.S", false⟩ ⟨"CustomGlow", 3⟩
    ⟨"Tint", ⟨1, 1, 1, 1⟩⟩ ⟨"ChanMask", ⟨1, 0, 0, 0⟩⟩ ⟨"Flip", true⟩
    rfl rfl rfl rfl rfl rfl
  exact ⟨rfl, h.1, h.2.2.2.2.2.1, h.2.2.2.2.2.2.2⟩

end ImportTask
